import Mathlib

/-
Verification of the startup configuration validators of matlab-proxy
(src/matlab_proxy/util/mwi/validators.py).

Python strings are embedded as lists of characters (`Str`); Python `None`
for an optional string becomes `none : Option Str`.  Exceptions raised by
the validators become the `PyError` sum type with one constructor per
Python exception class that the file can raise; the `Except` monad carries
them.  Side-effecting collaborators (the filesystem, the socket bind, the
entry-point registry) are passed in as explicit function or list
parameters, so every validator is a pure function of its inputs, exactly
as the validators use them.  Logging calls have no observable effect on a
validator's result and are not modelled, except where a claim is about
what is logged versus what is raised, which is settled on the raised
value.
-/

set_option maxHeartbeats 1000000
set_option maxRecDepth 100000

namespace MatlabProxy

/-- Python strings are modelled as lists of characters. -/
abbrev Str := List Char

/-- Equality of validator results is decidable, so that concrete runs can
be checked by evaluation. -/
instance {ε α : Type} [DecidableEq ε] [DecidableEq α] : DecidableEq (Except ε α) :=
  fun x y =>
    match x, y with
    | .ok a, .ok b => decidable_of_iff (a = b) (by simp)
    | .error e, .error f => decidable_of_iff (e = f) (by simp)
    | .ok _, .error _ => isFalse (by simp)
    | .error _, .ok _ => isFalse (by simp)

/-- Exceptions the validators file can raise, one constructor per Python
exception class: `FatalError` and the licensing/install errors from
`mwi.exceptions`, plus built-in `OSError`, `ValueError`, `KeyError` and a
re-raised `socket.error` carrying its errno. -/
inductive PyError where
  | FatalError (msg : Str)
  | NetworkLicensingError (msg : Str)
  | MatlabInstallError (msg : Str)
  | OSError (msg : Str)
  | ValueError (msg : Str)
  | KeyError (key : Str)
  | SocketError (en : Int)
  deriving DecidableEq

/-- The kind (Python class) of a raised error, forgetting its payload. -/
inductive ErrKind where
  | fatal
  | netLicensing
  | matlabInstall
  | osError
  | valueError
  | keyError
  | socketErr
  deriving DecidableEq

/-- Map an error to its kind. -/
def PyError.kind : PyError → ErrKind
  | .FatalError _ => .fatal
  | .NetworkLicensingError _ => .netLicensing
  | .MatlabInstallError _ => .matlabInstall
  | .OSError _ => .osError
  | .ValueError _ => .valueError
  | .KeyError _ => .keyError
  | .SocketError _ => .socketErr

/-- A port value as the code receives it: a Python string or an integer. -/
inductive PortVal where
  | str (s : Str)
  | int (n : Int)
  deriving DecidableEq

/-- Outcome of the transient `socket.bind` attempt: success, or a
`socket.error` carrying an errno.  The bind is a side effect, so it is a
parameter of the port validator. -/
inductive BindOutcome where
  | ok
  | err (en : Int)
  deriving DecidableEq

/-- Python truthiness of an optional string: `None` and `""` are falsy. -/
def pyTruthy : Option Str → Bool
  | none => false
  | some s => !s.isEmpty

/-- Unwrap an optional string, with the empty string for `None` (used only
where the code has already established the value is truthy). -/
def optStr : Option Str → Str
  | none => []
  | some s => s

/-- Python `str.lower()` (ASCII case folding; the profile names involved
are ASCII). -/
def pyLower (s : Str) : Str := s.map Char.toLower

/-- Whether `pat` is a prefix of `s`, by character comparison. -/
def startsWithL : Str → Str → Bool
  | [], _ => true
  | _ :: _, [] => false
  | a :: as, b :: bs => a == b && startsWithL as bs

/-- Whether `pat` occurs as a contiguous substring of `s`. -/
def occursIn (pat : Str) : Str → Bool
  | [] => startsWithL pat []
  | c :: rest => startsWithL pat (c :: rest) || occursIn pat rest

/-- The ASCII apostrophe character, used by Python `repr` of a string. -/
def squote : Char := Char.ofNat 39

/-- Python `repr` of a (quote-free) string: the string wrapped in
apostrophes.  Only applied to strings without quotes or escapes here. -/
def pyStrRepr (s : Str) : Str := squote :: s ++ [squote]

/-- Join a list of strings with a separator. -/
def joinWith (sep : Str) : List Str → Str
  | [] => []
  | [x] => x
  | x :: xs => x ++ sep ++ joinWith sep xs

/-- Python `str(list_of_strings)`: bracketed, comma-separated `repr`s,
as produced by `f"..\x7blist(available_configs.keys())\x7d.."`. -/
def pyListRepr (l : List Str) : Str :=
  '[' :: joinWith ", ".data (l.map pyStrRepr) ++ [']']

/-- Python whitespace characters stripped by `int(str)` (the common ones;
exotic unicode spaces are not modelled). -/
def pyIsSpace (c : Char) : Bool :=
  c == ' ' || c == '\t' || c == '\n' || c == '\r'

/-- Strip leading and trailing whitespace, as `int(str)` does. -/
def pyStrip (s : Str) : Str :=
  ((s.dropWhile pyIsSpace).reverse.dropWhile pyIsSpace).reverse

/-- Decimal value of a digit string. -/
def digitsVal (l : Str) : Nat :=
  l.foldl (fun acc c => 10 * acc + (c.toNat - 48)) 0

/-- Parse a non-empty all-digit string. -/
def parseNatDigits (l : Str) : Option Nat :=
  if !l.isEmpty && l.all Char.isDigit then some (digitsVal l) else none

/-- Python `int(str)` in base 10: strip whitespace, optional sign, digits.
(Python 3.6 underscore digit grouping is not modelled.)  `none` models a
raised `ValueError`. -/
def pyIntParse (s : Str) : Option Int :=
  match pyStrip s with
  | '+' :: ds => (parseNatDigits ds).map Int.ofNat
  | '-' :: ds => (parseNatDigits ds).map (fun n => -(Int.ofNat n))
  | ds => (parseNatDigits ds).map Int.ofNat

/-- Python `f"\x7bport\x7d"`: a string port prints as itself, an integer in
decimal. -/
def portRepr : PortVal → Str
  | .str s => s
  | .int n => (toString n).data

/-- Python `int(port)` for a port that is a string or already an integer;
`none` models the `ValueError` raised on an unparsable string. -/
def pyIntOfPort : PortVal → Option Int
  | .str s => pyIntParse s
  | .int n => some n

/-- Modelled from the spec: the environment variable the operator should
change for the listen port; `mwi_env.get_env_name_app_port()` lives
outside the validators file. -/
def env_name_app_port : Str := "MWI_APP_PORT".data

/-- Modelled from the spec: the base-URL environment variable name;
`mwi_env.get_env_name_base_url()` lives outside the validators file. -/
def env_name_base_url : Str := "MWI_BASE_URL".data

/-- Modelled from the spec: the custom installation-root override
variable; `mwi_env.get_env_name_custom_matlab_root()` lives outside the
validators file. -/
def env_name_custom_matlab_root : Str := "MWI_CUSTOM_MATLAB_ROOT".data

/-- Modelled from the spec: the fixed version-descriptor marker filename
expected directly under the installation root.  The validator docstring
names it as `VersionInfo.xml`; the constant itself is defined in
`matlab_proxy.constants`, outside the validators file. -/
def VERSION_INFO_FILE_NAME : Str := "VersionInfo.xml".data

/-- Modelled from the spec: the platform-specific separator between
license-server entries, `:` on posix-like systems and `;` on the other
platform; `system.get_mlm_license_file_seperator()` lives outside the
validators file. -/
def get_mlm_license_file_seperator (isPosix : Bool) : Char :=
  if isPosix then ':' else ';'

/-- `errno.EADDRINUSE` (Linux value 98); the code compares the caught
socket error's errno against this constant. -/
def EADDRINUSE : Int := 98

/-- Error message of `validate_mlm_license_file`, built around the whole
input string. -/
def mlmErrMsg (s : Str) : Str :=
  "MLM_LICENSE_FILE validation failed for ".data ++ s ++
  ". If set, the MLM_LICENSE_FILE environment variable must contain server names (each of the form port@hostname) separated by \x27:\x27 on unix or \x27;\x27 on windows(server triads however must be comma seperated) OR path to a valid license file.".data

/-- Error message of `validate_app_port_is_free` for an occupied port. -/
def portUnavailMsg (p : PortVal) : Str :=
  "The port ".data ++ portRepr p ++
  " is not available. Please set another value for the environment variable ".data ++
  env_name_app_port

/-- Message of the `ValueError` Python's `int()` raises on an unparsable
string. -/
def intErrMsg (s : Str) : Str :=
  "invalid literal for int() with base 10: ".data ++ pyStrRepr s

/-- Error message of `validate_base_url` for a missing leading slash. -/
def baseUrlErrMsg : Str :=
  "The value of environment variable ".data ++ env_name_base_url ++
  " must start with \"/\" ".data

/-- Error message of `validate_ssl_cert_file`. -/
def sslCertNotFileMsg (c : Str) : Str :=
  "MWI_SSL_CERT_FILE is not a valid file: ".data ++ c

/-- Error message of `validate_ssl_key_and_cert_file` when a key is
supplied without a cert. -/
def sslDepMsg : Str :=
  "MWI_SSL_CERT_FILE must be provided to use the MWI_SSL_KEY_FILE".data

/-- Error message of `validate_ssl_key_and_cert_file` for a key path that
is not a file. -/
def sslKeyNotFileMsg (k : Str) : Str :=
  "MWI_SSL_KEY_FILE is not a valid file: ".data ++ k

/-- The `error_string` built by `terminate_on_invalid_matlab_root_path`:
base not-found message plus the advice selected by the is-custom flag. -/
def matlabRootErrMsg (root : Str) (is_custom : Bool) : Str :=
  "Unable to find MATLAB at: ".data ++ root ++
  (if is_custom then
    "\nEdit the environment variable ".data ++ env_name_custom_matlab_root ++
    " to the correct path, and restart matlab-proxy.".data
  else
    "\nUpdate your system PATH, and restart matlab-proxy.".data)

/-- The text `terminate_on_invalid_matlab_root_path` appends to the logged
message when the version-descriptor file is missing. -/
def versionInfoMissingMsg : Str :=
  "Failed to locate ".data ++ VERSION_INFO_FILE_NAME ++ " at this location.".data

/-- Error message of `validate_env_config` for a profile missing a key. -/
def missingKeyMsg (key conf : Str) : Str :=
  key ++ " missing in the provided ".data ++ conf ++ " configuration".data

/-- Error message of `validate_env_config` for an unknown profile name. -/
def configNotFoundMsg (conf : Str) (names : List Str) : Str :=
  conf ++ " is not a valid config. Available configs are : ".data ++ pyListRepr names

/-- Python `\w` on a character (ASCII part: alphanumeric or underscore;
non-ASCII word characters are not modelled, which no claim depends on). -/
def pyWordChar (c : Char) : Bool := c.isAlphanum || c == '_'

/-- The character class `(\w|\_|\-|\.)` of the license regex. -/
def nlmClassChar (c : Char) : Bool := pyWordChar c || c == '-' || c == '.'

/-- Every character the license grammar can contain, in any position. -/
def nlmAllChar (c : Char) : Bool := c.isDigit || c == '@' || nlmClassChar c

/-- The anchored license-token pattern `^[0-9]+[@](\w|\_|\-|\.)+$` read as
a grammar: one or more digits, `@`, one or more class characters.  This is
also exactly the grammar as the specification states it. -/
def matchesNlmCore (s : Str) : Bool :=
  match s.dropWhile Char.isDigit with
  | [] => false
  | c :: hs =>
    c == '@' && !(s.takeWhile Char.isDigit).isEmpty && !hs.isEmpty &&
    hs.all nlmClassChar

/-- Python `re.search` of the anchored pattern: because `$` also matches
just before a single newline at the end of the string, a token consisting
of a grammar match plus one trailing newline is accepted too. -/
def re_search_nlm (s : Str) : Bool :=
  matchesNlmCore s ||
  (match s.getLast? with
   | some c => c == '\n' && matchesNlmCore s.dropLast
   | none => false)

/-- Python `re.split(f"\x7bseperator\x7d|,", s)`: split on every occurrence
of the platform separator or a comma, keeping empty pieces.  `acc` holds
the current piece in reverse. -/
def splitOnSeps (sp : Char) : Str → Str → List Str
  | [], acc => [acc.reverse]
  | c :: rest, acc =>
    if c = sp ∨ c = ',' then acc.reverse :: splitOnSeps sp rest []
    else splitOnSeps sp rest (c :: acc)

/-- Validity of one license token: an existing file on disk, or a
`re.search` match of the anchored pattern — the two branches of the loop
body in `validate_mlm_license_file`. -/
def nlmTokenOk (isfile : Str → Bool) (t : Str) : Bool :=
  isfile t || re_search_nlm t

/-- The token loop of `validate_mlm_license_file`: raises
`NetworkLicensingError` (whose message names the whole original string)
at the first token that is neither a file nor a pattern match. -/
def checkTokens (isfile : Str → Bool) (orig : Str) : List Str → Except PyError Unit
  | [] => .ok ()
  | t :: rest =>
    if nlmTokenOk isfile t then checkTokens isfile orig rest
    else .error (.NetworkLicensingError (mlmErrMsg orig))

/-- `validate_mlm_license_file`: `None` or `""` pass through as `None`
(license optional); otherwise the string is split on the platform
separator and commas, every token is checked, and the original string is
returned unchanged.  `isfile` is `os.path.isfile`; `isPosix` selects the
platform separator. -/
def validate_mlm_license_file (isfile : Str → Bool) (isPosix : Bool)
    (nlm_connections_str : Option Str) : Except PyError (Option Str) :=
  match nlm_connections_str with
  | none => .ok none
  | some s =>
    if s = [] then .ok none
    else
      match checkTokens isfile s
          (splitOnSeps (get_mlm_license_file_seperator isPosix) s []) with
      | .ok _ => .ok (some s)
      | .error e => .error e

/-- `validate_app_port_is_free`: `None` passes through; otherwise
`int(port)` (a `ValueError` on an unparsable string propagates, since the
`except` clause catches only `socket.error`), then a transient bind whose
outcome `bind` supplies: success returns the port unchanged, a socket
error with errno `EADDRINUSE` becomes a `FatalError` naming the port and
`MWI_APP_PORT`, and any other socket error is re-raised as itself. -/
def validate_app_port_is_free (bind : Int → BindOutcome)
    (port : Option PortVal) : Except PyError (Option PortVal) :=
  match port with
  | none => .ok none
  | some pv =>
    match pyIntOfPort pv with
    | none => .error (.ValueError (intErrMsg (portRepr pv)))
    | some n =>
      match bind n with
      | .ok => .ok (some pv)
      | .err en =>
        if en = EADDRINUSE then .error (.FatalError (portUnavailMsg pv))
        else .error (.SocketError en)

/-- `validate_base_url`: `""` maps to `""`; a non-empty value must start
with `/` or a `FatalError` is raised; a single trailing `/` is stripped
by `base_url[:-1]`. -/
def validate_base_url (base_url : Str) : Except PyError Str :=
  if base_url = [] then .ok []
  else if base_url.head? ≠ some '/' then .error (.FatalError baseUrlErrMsg)
  else .ok (if base_url.getLast? = some '/' then base_url.dropLast else base_url)

/-- Keys of a record, in insertion order (Python `dict.keys()`). -/
def keysOf {α : Type} (r : List (Str × α)) : List Str := r.map Prod.fst

/-- Dictionary lookup on an association list (Python `dict[k]` /
`k in dict`; dict keys are unique, so first match suffices). -/
def alookup {α : Type} : List (Str × α) → Str → Option α
  | [], _ => none
  | (k, v) :: rest, key => if k = key then some v else alookup rest key

/-- The key loop of `validate_env_config`: raises `FatalError` at the
first key of the default record that is absent from the supplied
record's keys. -/
def checkKeys (conf : Str) (envKeys : List Str) : List Str → Except PyError Unit
  | [] => .ok ()
  | k :: rest =>
    if k ∈ envKeys then checkKeys conf envKeys rest
    else .error (.FatalError (missingKeyMsg k conf))

/-- `validate_env_config`: the entry-point registry `__get_configs()` is
passed in as an association list of lowercase names to records, and the
default-profile name constant `matlab_proxy.get_default_config_name()` as
`defaultName`.  The supplied name is lowercased and looked up; if found,
every key of the default profile's record must be present in it (a Python
`KeyError` occurs when the default profile itself is absent); otherwise a
`FatalError` lists the available names. -/
def validate_env_config {α : Type} (registry : List (Str × List (Str × α)))
    (defaultName config : Str) : Except PyError (List (Str × α)) :=
  let configL := pyLower config
  match alookup registry configL with
  | some env_config =>
    match alookup registry defaultName with
    | none => .error (.KeyError defaultName)
    | some default_config =>
      match checkKeys configL (keysOf env_config) (keysOf default_config) with
      | .ok _ => .ok env_config
      | .error e => .error e
  | none => .error (.FatalError (configNotFoundMsg configL (registry.map Prod.fst)))

/-- `validate_ssl_cert_file`: empty or `None` pass through; a truthy value
must name an existing file (`isfile` is `os.path.isfile`). -/
def validate_ssl_cert_file (isfile : Str → Bool)
    (a_ssl_cert_file : Option Str) : Except PyError (Option Str) :=
  if pyTruthy a_ssl_cert_file then
    if !isfile (optStr a_ssl_cert_file) then
      .error (.FatalError (sslCertNotFileMsg (optStr a_ssl_cert_file)))
    else .ok a_ssl_cert_file
  else .ok a_ssl_cert_file

/-- `validate_ssl_key_and_cert_file`: both `None` is accepted; otherwise
the cert is validated first, then the dependency check compares the
validated cert against `None` (so an empty-string cert does not trigger
it), then a truthy key must name an existing file.  The original pair is
returned. -/
def validate_ssl_key_and_cert_file (isfile : Str → Bool)
    (a_ssl_key_file a_ssl_cert_file : Option Str) :
    Except PyError (Option Str × Option Str) :=
  if a_ssl_cert_file = none ∧ a_ssl_key_file = none then
    .ok (a_ssl_key_file, a_ssl_cert_file)
  else
    match validate_ssl_cert_file isfile a_ssl_cert_file with
    | .error e => .error e
    | .ok cert_file =>
      if cert_file = none ∧ a_ssl_key_file ≠ none then
        .error (.FatalError sslDepMsg)
      else if pyTruthy a_ssl_key_file && !isfile (optStr a_ssl_key_file) then
        .error (.FatalError (sslKeyNotFileMsg (optStr a_ssl_key_file)))
      else .ok (a_ssl_key_file, a_ssl_cert_file)

/-- `__validate_if_paths_exist`: raises `OSError` at the first path that
fails `util.is_valid_path` (passed in as `is_valid_path`), else returns
the list. -/
def __validate_if_paths_exist (is_valid_path : Str → Bool)
    (paths : List Str) : Except PyError (List Str) :=
  match paths.find? (fun p => !is_valid_path p) with
  | some p => .error (.OSError ("Supplied invalid path:".data ++ p))
  | none => .ok paths

/-- `terminate_on_invalid_matlab_root_path`: a nonexistent root raises
`MatlabInstallError` with the base message; an existing root without the
version-descriptor file directly under it raises `MatlabInstallError`
with the same base message (the descriptor text is appended only to the
logged string, not to the raised one); otherwise the root is returned.
`isfile` is `Path.is_file`; the `/` path join is modelled textually. -/
def terminate_on_invalid_matlab_root_path (is_valid_path isfile : Str → Bool)
    (matlab_root : Str) (is_custom_matlab_root : Bool) : Except PyError Str :=
  let error_string := matlabRootErrMsg matlab_root is_custom_matlab_root
  match __validate_if_paths_exist is_valid_path [matlab_root] with
  | .error _ => .error (.MatlabInstallError error_string)
  | .ok _ =>
    if !isfile (matlab_root ++ '/' :: VERSION_INFO_FILE_NAME) then
      .error (.MatlabInstallError error_string)
    else .ok matlab_root

/-- A bind outcome in which every port is already in use. -/
def bindBusy : Int → BindOutcome := fun _ => .err EADDRINUSE

/-- A registry with only the default profile, for exercising the
not-found branch of `validate_env_config`. -/
def regNoCloud : List (Str × List (Str × Nat)) :=
  [("default".data, [("a".data, 1)])]

/-- A registry whose `cloud` profile lacks a key the default has. -/
def regBadCloud : List (Str × List (Str × Nat)) :=
  [("default".data, [("a".data, 1)]), ("cloud".data, [])]

/-- A registry whose `cloud` profile has all keys of the default. -/
def regGood : List (Str × List (Str × Nat)) :=
  [("default".data, [("a".data, 1)]),
   ("cloud".data, [("a".data, 2), ("b".data, 3)])]

/- Helper lemmas. -/

/-- Successful runs of `validate_base_url` in closed form: the empty input
maps to the empty output, and a non-empty input starts with a slash and has
one trailing slash stripped. -/
theorem vbu_ok_shape (x y : Str) (h : validate_base_url x = .ok y) :
    (x = [] ∧ y = []) ∨
    (x ≠ [] ∧ x.head? = some '/' ∧
      y = (if x.getLast? = some '/' then x.dropLast else x)) := by
  unfold validate_base_url at h
  by_cases hx : x = []
  · rw [if_pos hx] at h
    simp only [Except.ok.injEq] at h
    exact Or.inl ⟨hx, h.symm⟩
  · rw [if_neg hx] at h
    by_cases hh : x.head? = some '/'
    · rw [if_neg (not_not_intro hh)] at h
      simp only [Except.ok.injEq] at h
      exact Or.inr ⟨hx, hh, h.symm⟩
    · rw [if_pos hh] at h
      exact absurd h (by simp)

/-- Dropping the last element of a list of length at least two keeps its
head. -/
theorem head?_dropLast_cons (a : Char) (as : Str) (hne : as ≠ []) :
    (a :: as).dropLast.head? = some a := by
  cases as with
  | nil => exact absurd rfl hne
  | cons b t => rfl

/-- A non-empty output of `validate_base_url` starts with a slash. -/
theorem vbu_ok_head (x y : Str) (h : validate_base_url x = .ok y) (hy : y ≠ []) :
    y.head? = some '/' := by
  rcases vbu_ok_shape x y h with ⟨_, hy0⟩ | ⟨hx, hh, hyd⟩
  · exact absurd hy0 hy
  · by_cases hl : x.getLast? = some '/'
    · rw [if_pos hl] at hyd
      cases x with
      | nil => exact absurd rfl hx
      | cons a as =>
        have ha : a = '/' := by simpa using hh
        cases as with
        | nil => simp [List.dropLast] at hyd; exact absurd hyd hy
        | cons b t =>
          subst hyd
          rw [head?_dropLast_cons a (b :: t) (by simp), ha]
    · rw [if_neg hl] at hyd
      subst hyd
      exact hh

/- Claim theorems. -/

/-- C1 counterexample: with a present key naming an existing file and an
empty-string cert, `validate_ssl_key_and_cert_file` returns successfully
instead of failing with the dependency error, so an empty cert is not
treated the same as an absent cert. -/
theorem ssl_empty_cert_cex :
    validate_ssl_key_and_cert_file (fun s => s == "k".data)
        (some ("k".data)) (some []) = .ok (some ("k".data), some []) ∧
    some ("k".data) ≠ (none : Option Str) := by decide

/-- C1 (amended): a `None` cert is treated as absent but an empty-string
cert is not: for every present key, the validator fails with the
`TlsDependencyError` message exactly when the cert is `None`; when the cert
is the empty string the dependency error is never raised — the validator
either succeeds or fails with the key-file-not-found error. -/
theorem ssl_key_requires_none_cert (isfile : Str → Bool)
    (key cert : Option Str) (hk : key ≠ none) :
    (cert = none →
      validate_ssl_key_and_cert_file isfile key cert =
        .error (.FatalError sslDepMsg)) ∧
    (cert = some [] →
      validate_ssl_key_and_cert_file isfile key cert = .ok (key, cert) ∨
      validate_ssl_key_and_cert_file isfile key cert =
        .error (.FatalError (sslKeyNotFileMsg (optStr key)))) := by
  obtain ⟨k, rfl⟩ : ∃ k, key = some k := by
    cases key with
    | none => exact absurd rfl hk
    | some k => exact ⟨k, rfl⟩
  constructor
  · rintro rfl
    simp [validate_ssl_key_and_cert_file, validate_ssl_cert_file, pyTruthy]
  · rintro rfl
    by_cases hb : (!k.isEmpty && !isfile (optStr (some k))) = true
    · right
      simp only [validate_ssl_key_and_cert_file, validate_ssl_cert_file]
      rw [if_neg (by simp)]
      simp only [pyTruthy, List.isEmpty_nil, Bool.not_true, Bool.false_eq_true,
        if_false]
      rw [if_neg (by simp), if_pos hb]
    · left
      simp only [validate_ssl_key_and_cert_file, validate_ssl_cert_file]
      rw [if_neg (by simp)]
      simp only [pyTruthy, List.isEmpty_nil, Bool.not_true, Bool.false_eq_true,
        if_false]
      rw [if_neg (by simp), if_neg hb]

/-- C1 witness: a present key with an absent cert hits the dependency
error. -/
theorem ssl_key_requires_none_cert_witness :
    validate_ssl_key_and_cert_file (fun _ => false) (some ("k".data)) none =
      .error (.FatalError sslDepMsg) :=
  (ssl_key_requires_none_cert (fun _ => false) (some ("k".data)) none
    (by decide)).1 rfl

/-- C2 counterexample: the port-unavailable failure and the base-URL-format
failure are different failure modes (their messages differ) yet are raised
with the same error kind `FatalError`, so the claimed pairwise-distinct
kinds do not exist in the code. -/
theorem error_kinds_collapsed_cex :
    validate_app_port_is_free bindBusy (some (.str ("8080".data))) =
      .error (.FatalError (portUnavailMsg (.str ("8080".data)))) ∧
    validate_base_url ("x".data) = .error (.FatalError baseUrlErrMsg) ∧
    portUnavailMsg (.str ("8080".data)) ≠ baseUrlErrMsg ∧
    (PyError.FatalError (portUnavailMsg (.str ("8080".data)))).kind =
      (PyError.FatalError baseUrlErrMsg).kind := by decide

/-- C2 (amended): the six failure modes named in the claim are
distinguished only by their messages, not by their error kinds — all six
are raised as the single kind `FatalError` (with pairwise-distinct
messages), while licensing failures use the distinct kind
`NetworkLicensingError` and installation failures the distinct kind
`MatlabInstallError`. -/
theorem error_kind_taxonomy :
    validate_app_port_is_free bindBusy (some (.str ("8080".data))) =
      .error (.FatalError (portUnavailMsg (.str ("8080".data)))) ∧
    validate_base_url ("x".data) = .error (.FatalError baseUrlErrMsg) ∧
    validate_ssl_cert_file (fun _ => false) (some ("c".data)) =
      .error (.FatalError (sslCertNotFileMsg ("c".data))) ∧
    validate_ssl_key_and_cert_file (fun _ => false) (some ("k".data)) none =
      .error (.FatalError sslDepMsg) ∧
    validate_env_config regNoCloud ("default".data) ("nope".data) =
      .error (.FatalError (configNotFoundMsg ("nope".data) [("default".data)])) ∧
    validate_env_config regBadCloud ("default".data) ("cloud".data) =
      .error (.FatalError (missingKeyMsg ("a".data) ("cloud".data))) ∧
    validate_mlm_license_file (fun _ => false) true (some ("x".data)) =
      .error (.NetworkLicensingError (mlmErrMsg ("x".data))) ∧
    terminate_on_invalid_matlab_root_path (fun _ => false) (fun _ => false)
        ("/m".data) false =
      .error (.MatlabInstallError (matlabRootErrMsg ("/m".data) false)) ∧
    [portUnavailMsg (.str ("8080".data)), baseUrlErrMsg,
      sslCertNotFileMsg ("c".data), sslDepMsg,
      configNotFoundMsg ("nope".data) [("default".data)],
      missingKeyMsg ("a".data) ("cloud".data)].Nodup ∧
    (PyError.FatalError []).kind ≠ (PyError.NetworkLicensingError []).kind ∧
    (PyError.FatalError []).kind ≠ (PyError.MatlabInstallError []).kind ∧
    (PyError.NetworkLicensingError []).kind ≠
      (PyError.MatlabInstallError []).kind := by decide

/-- C3 counterexample: the normalizer succeeds on "//" with output "/",
but re-running it on "/" yields "", not "/", so it is not idempotent. -/
theorem base_url_idem_cex :
    validate_base_url ("//".data) = .ok ("/".data) ∧
    validate_base_url ("/".data) = .ok ([] : Str) ∧
    ([] : Str) ≠ "/".data := by decide

/-- C3 (amended): the normalizer is idempotent on every input whose
successful output does not itself end with a slash (only one trailing
slash is stripped per run): if it succeeds on `x` with output `y` and `y`
has no trailing slash, it succeeds on `y` returning `y`. -/
theorem base_url_idempotent (x y : Str) (h : validate_base_url x = .ok y)
    (hy : y.getLast? ≠ some '/') : validate_base_url y = .ok y := by
  by_cases hynil : y = []
  · subst hynil; decide
  · have hh := vbu_ok_head x y h hynil
    unfold validate_base_url
    rw [if_neg hynil, if_neg (not_not_intro hh), if_neg hy]

/-- C3 witness: the output "/a" of normalizing "/a/" re-normalizes to
itself. -/
theorem base_url_idempotent_witness :
    validate_base_url ("/a".data) = .ok ("/a".data) :=
  base_url_idempotent ("/a/".data) ("/a".data) (by decide) (by decide)

/-- C4 counterexample: on input "//" the normalizer succeeds with the
non-empty output "/", which still ends with a slash, contradicting the
claimed no-trailing-slash invariant of returned values. -/
theorem base_url_trailing_cex :
    validate_base_url ("//".data) = .ok ("/".data) ∧
    "/".data ≠ ([] : Str) ∧ ("/".data).getLast? = some '/' := by decide

/-- C4 (amended): a successful output, if non-empty, begins with a slash
and equals the input with exactly one trailing slash stripped when present
(so it can still end with a slash when the input ended with two); the
empty string is returned exactly for the root inputs "" and "/". -/
theorem base_url_invariant (x y : Str) (h : validate_base_url x = .ok y) :
    (y ≠ [] → y.head? = some '/') ∧
    y = (if x.getLast? = some '/' then x.dropLast else x) ∧
    (y = [] ↔ x = [] ∨ x = ['/']) := by
  refine ⟨fun hy => vbu_ok_head x y h hy, ?_, ?_⟩
  · rcases vbu_ok_shape x y h with ⟨hx, hy0⟩ | ⟨_, _, hyd⟩
    · subst hx; subst hy0; simp
    · exact hyd
  · rcases vbu_ok_shape x y h with ⟨hx, hy0⟩ | ⟨hx, hh, hyd⟩
    · subst hx; subst hy0; simp
    · cases x with
      | nil => exact absurd rfl hx
      | cons a as =>
        have ha : a = '/' := by simpa using hh
        subst ha
        constructor
        · intro hy0
          by_cases hl : ('/' :: as).getLast? = some '/'
          · rw [if_pos hl] at hyd
            cases as with
            | nil => exact Or.inr rfl
            | cons b t =>
              rw [hyd] at hy0
              simp [List.dropLast] at hy0
          · rw [if_neg hl] at hyd
            rw [hyd] at hy0
            simp at hy0
        · rintro (hx0 | hx1)
          · exact absurd hx0 (by simp)
          · rw [hx1] at hyd
            simpa [List.getLast?_singleton] using hyd

/-- C4 witness: normalizing "/matlab/" yields "/matlab", which satisfies
the amended invariant. -/
theorem base_url_invariant_witness :
    validate_base_url ("/matlab/".data) = .ok ("/matlab".data) ∧
    (("/matlab".data ≠ ([] : Str) → ("/matlab".data).head? = some '/') ∧
     "/matlab".data = (if ("/matlab/".data).getLast? = some '/'
        then ("/matlab/".data).dropLast else "/matlab/".data) ∧
     ("/matlab".data = ([] : Str) ↔
        "/matlab/".data = ([] : Str) ∨ "/matlab/".data = ['/'])) :=
  ⟨by decide, base_url_invariant ("/matlab/".data) ("/matlab".data) (by decide)⟩

/-- C5 counterexample: an existing root ("/m") missing the descriptor file
makes the validator raise an error whose message is exactly the base
not-found message; neither the appended descriptor text nor even its
"Failed to locate" fragment occurs in the raised message. -/
theorem matlab_root_message_cex :
    terminate_on_invalid_matlab_root_path (fun _ => true) (fun _ => false)
        ("/m".data) true =
      .error (.MatlabInstallError (matlabRootErrMsg ("/m".data) true)) ∧
    occursIn versionInfoMissingMsg (matlabRootErrMsg ("/m".data) true) = false ∧
    occursIn ("Failed to locate".data) (matlabRootErrMsg ("/m".data) true) =
      false := by decide

/-- C5 (amended): for every root path that exists but does not directly
contain the version-descriptor file, the validator fails with
`MatlabInstallError` carrying exactly the base not-found message; the
"missing descriptor" text is appended only to the logged string, not to
the raised error. -/
theorem matlab_root_missing_marker (is_valid_path isfile : Str → Bool)
    (root : Str) (custom : Bool)
    (hex : is_valid_path root = true)
    (hvi : isfile (root ++ '/' :: VERSION_INFO_FILE_NAME) = false) :
    terminate_on_invalid_matlab_root_path is_valid_path isfile root custom =
      .error (.MatlabInstallError (matlabRootErrMsg root custom)) := by
  simp [terminate_on_invalid_matlab_root_path, __validate_if_paths_exist,
    List.find?, hex, hvi]

/-- C5 witness: a concrete existing root without the descriptor file. -/
theorem matlab_root_missing_marker_witness :
    terminate_on_invalid_matlab_root_path (fun _ => true) (fun _ => false)
        ("/opt/matlab".data) false =
      .error (.MatlabInstallError (matlabRootErrMsg ("/opt/matlab".data) false)) :=
  matlab_root_missing_marker (fun _ => true) (fun _ => false)
    ("/opt/matlab".data) false rfl rfl

/-- C8: an absent port passes through untouched; for a parseable present
port, the validator fails with the port-unavailable `FatalError` (naming
the port and `MWI_APP_PORT`) exactly when the bind fails with errno
`EADDRINUSE`; any other socket error is re-raised as itself; a successful
bind returns the port unchanged; and an unparsable string port raises
`ValueError`, never the port-unavailable error. -/
theorem port_free_check (bind : Int → BindOutcome) :
    validate_app_port_is_free bind none = .ok none ∧
    (∀ pv n, pyIntOfPort pv = some n →
      ((validate_app_port_is_free bind (some pv) =
          .error (.FatalError (portUnavailMsg pv))) ↔
        bind n = .err EADDRINUSE) ∧
      (∀ en, bind n = .err en → en ≠ EADDRINUSE →
        validate_app_port_is_free bind (some pv) = .error (.SocketError en)) ∧
      (bind n = .ok →
        validate_app_port_is_free bind (some pv) = .ok (some pv))) ∧
    (∀ s, pyIntParse s = none →
      validate_app_port_is_free bind (some (.str s)) =
        .error (.ValueError (intErrMsg s))) := by
  refine ⟨rfl, ?_, ?_⟩
  · intro pv n hn
    refine ⟨?_, ?_, ?_⟩ <;> simp only [validate_app_port_is_free, hn]
    · cases hb : bind n with
      | ok => simp
      | err en =>
        by_cases he : en = EADDRINUSE
        · subst he; simp
        · simp [he]
    · intro en hb he
      rw [hb]
      simp [he]
    · intro hb
      rw [hb]
  · intro s hs
    simp only [validate_app_port_is_free, pyIntOfPort, hs]
    rfl

/-- C8 witness: a busy bind on a concrete port yields the port-unavailable
error. -/
theorem port_free_check_witness :
    validate_app_port_is_free bindBusy (some (.str ("8080".data))) =
      .error (.FatalError (portUnavailMsg (.str ("8080".data)))) :=
  (((port_free_check bindBusy).2.1 (.str ("8080".data)) 8080 (by decide)).1).mpr
    rfl

/-- C10: a present string port that does not parse as an integer makes the
validator raise the integer-conversion `ValueError` itself — it is neither
caught nor translated into the port-unavailable `FatalError` kind, since
the `except` clause matches only socket errors. -/
theorem port_int_value_error (bind : Int → BindOutcome) (s : Str)
    (h : pyIntParse s = none) :
    validate_app_port_is_free bind (some (.str s)) =
      .error (.ValueError (intErrMsg s)) ∧
    (PyError.ValueError (intErrMsg s)).kind ≠ ErrKind.fatal := by
  constructor
  · simp only [validate_app_port_is_free, pyIntOfPort, h]
    rfl
  · simp only [PyError.kind]
    decide

/-- C10 witness: the concrete unparsable port "abc". -/
theorem port_int_value_error_witness :
    validate_app_port_is_free (fun _ => .ok) (some (.str ("abc".data))) =
      .error (.ValueError (intErrMsg ("abc".data))) ∧
    (PyError.ValueError (intErrMsg ("abc".data))).kind ≠ ErrKind.fatal :=
  port_int_value_error (fun _ => .ok) ("abc".data) (by decide)

/-- The key loop accepts a list of keys exactly when each of them is
among the supplied record's keys. -/
theorem checkKeys_ok_iff (conf : Str) (envKeys : List Str) :
    ∀ l : List Str, checkKeys conf envKeys l = .ok () ↔ ∀ k ∈ l, k ∈ envKeys := by
  intro l
  induction l with
  | nil => simp [checkKeys]
  | cons k rest ih =>
    by_cases hk : k ∈ envKeys
    · simp [checkKeys, hk, ih]
    · simp [checkKeys, hk]

/-- A failing key loop fails on some missing key, with the corresponding
message. -/
theorem checkKeys_error (conf : Str) (envKeys : List Str) :
    ∀ (l : List Str) (e : PyError), checkKeys conf envKeys l = .error e →
      ∃ k, k ∈ l ∧ k ∉ envKeys ∧ e = .FatalError (missingKeyMsg k conf) := by
  intro l
  induction l with
  | nil => intro e h; simp [checkKeys] at h
  | cons k rest ih =>
    intro e h
    by_cases hk : k ∈ envKeys
    · simp only [checkKeys] at h
      rw [if_pos hk] at h
      obtain ⟨k', hk1, hk2, hk3⟩ := ih e h
      exact ⟨k', List.mem_cons_of_mem _ hk1, hk2, hk3⟩
    · simp only [checkKeys] at h
      rw [if_neg hk] at h
      simp only [Except.error.injEq] at h
      exact ⟨k, List.mem_cons_self _ _, hk, h.symm⟩

/-- C9: for a profile name found in the registry after lowercasing (and
with the default profile present, as the registry guarantees), the
validator returns the resolved record unchanged exactly when every key of
the default record is among its keys; any failure is a `FatalError`
naming a missing key and the lowercased profile; and some missing key
forces exactly such a failure. -/
theorem env_config_schema (α : Type) (registry : List (Str × List (Str × α)))
    (defaultName config : Str) (envRec defRec : List (Str × α))
    (hfound : alookup registry (pyLower config) = some envRec)
    (hdef : alookup registry defaultName = some defRec) :
    (validate_env_config registry defaultName config = .ok envRec ↔
      ∀ k ∈ keysOf defRec, k ∈ keysOf envRec) ∧
    (∀ e, validate_env_config registry defaultName config = .error e →
      ∃ k, k ∈ keysOf defRec ∧ k ∉ keysOf envRec ∧
        e = .FatalError (missingKeyMsg k (pyLower config))) ∧
    ((∃ k, k ∈ keysOf defRec ∧ k ∉ keysOf envRec) →
      ∃ k, k ∈ keysOf defRec ∧ k ∉ keysOf envRec ∧
        validate_env_config registry defaultName config =
          .error (.FatalError (missingKeyMsg k (pyLower config)))) := by
  have hval : validate_env_config registry defaultName config =
      match checkKeys (pyLower config) (keysOf envRec) (keysOf defRec) with
      | .ok _ => .ok envRec
      | .error e => .error e := by
    simp only [validate_env_config, hfound, hdef]
  cases hck : checkKeys (pyLower config) (keysOf envRec) (keysOf defRec) with
  | ok u =>
    cases u
    rw [hck] at hval
    refine ⟨?_, ?_, ?_⟩
    · rw [hval]
      exact iff_of_true rfl ((checkKeys_ok_iff _ _ _).mp hck)
    · intro e he
      rw [hval] at he
      exact absurd he (by simp)
    · rintro ⟨k, h1, h2⟩
      exact absurd ((checkKeys_ok_iff _ _ _).mp hck k h1) h2
  | error e =>
    rw [hck] at hval
    obtain ⟨k, h1, h2, h3⟩ := checkKeys_error _ _ _ e hck
    refine ⟨?_, ?_, ?_⟩
    · rw [hval]
      constructor
      · intro he; exact absurd he (by simp)
      · intro hall; exact absurd (hall k h1) h2
    · intro e' he'
      rw [hval] at he'
      simp only [Except.error.injEq] at he'
      exact ⟨k, h1, h2, he' ▸ h3⟩
    · intro _
      exact ⟨k, h1, h2, by rw [hval, h3]⟩

/-- C9 witness: the `Cloud` profile resolves case-insensitively against a
registry in which it has every key of the default profile. -/
theorem env_config_schema_witness :
    validate_env_config regGood ("default".data) ("Cloud".data) =
      .ok [("a".data, 2), ("b".data, 3)] :=
  ((env_config_schema Nat regGood ("default".data) ("Cloud".data)
      [("a".data, 2), ("b".data, 3)] [("a".data, 1)]
      (by decide) (by decide)).1).mpr (by decide)

/-- The token loop succeeds exactly when every token is valid. -/
theorem checkTokens_ok_iff (isfile : Str → Bool) (orig : Str) :
    ∀ l : List Str, checkTokens isfile orig l = .ok () ↔
      ∀ t ∈ l, nlmTokenOk isfile t = true := by
  intro l
  induction l with
  | nil => simp [checkTokens]
  | cons t rest ih =>
    by_cases ht : nlmTokenOk isfile t = true
    · simp [checkTokens, ht, ih]
    · simp [checkTokens, ht]

/-- A failing token loop always carries the licensing error built from the
whole original string. -/
theorem checkTokens_error_msg (isfile : Str → Bool) (orig : Str) :
    ∀ (l : List Str) (e : PyError), checkTokens isfile orig l = .error e →
      e = .NetworkLicensingError (mlmErrMsg orig) := by
  intro l
  induction l with
  | nil => intro e h; simp [checkTokens] at h
  | cons t rest ih =>
    intro e h
    by_cases ht : nlmTokenOk isfile t = true
    · simp only [checkTokens] at h
      rw [if_pos ht] at h
      exact ih e h
    · simp only [checkTokens] at h
      rw [if_neg ht] at h
      simp only [Except.error.injEq] at h
      exact h.symm

/-- Every character of a string accepted by the anchored grammar is a
digit, the `@` sign, or a class character. -/
theorem core_all_chars (s : Str) (h : matchesNlmCore s = true) :
    ∀ c ∈ s, nlmAllChar c = true := by
  intro c hc
  unfold matchesNlmCore at h
  cases hd : s.dropWhile Char.isDigit with
  | nil => rw [hd] at h; simp at h
  | cons d hs =>
    rw [hd] at h
    simp only [Bool.and_eq_true, beq_iff_eq] at h
    obtain ⟨⟨⟨hat, _⟩, _⟩, hall⟩ := h
    have hsplit := List.takeWhile_append_dropWhile Char.isDigit s
    rw [hd] at hsplit
    rw [← hsplit] at hc
    rcases List.mem_append.mp hc with h1 | h2
    · have hdig := List.mem_takeWhile_imp h1
      simp [nlmAllChar, hdig]
    · cases List.mem_cons.mp h2 with
      | inl he =>
        subst he
        subst hat
        decide
      | inr h3 =>
        have hcl := List.all_eq_true.mp hall c h3
        simp [nlmAllChar, hcl]

/-- A grammar-accepted string contains no separator character. -/
theorem core_no_sep (s : Str) (h : matchesNlmCore s = true) (sp : Char)
    (hsp : nlmAllChar sp = false) :
    ∀ c ∈ s, ¬(c = sp ∨ c = ',') := by
  intro c hc hor
  have hall := core_all_chars s h c hc
  rcases hor with rfl | rfl
  · rw [hall] at hsp
    exact Bool.noConfusion hsp
  · have hcomma : nlmAllChar ',' = true := hall
    exact absurd hcomma (by decide)

/-- Splitting a string that contains no separator yields it whole. -/
theorem splitOnSeps_no_sep (sp : Char) :
    ∀ s acc : Str, (∀ c ∈ s, ¬(c = sp ∨ c = ',')) →
      splitOnSeps sp s acc = [acc.reverse ++ s] := by
  intro s
  induction s with
  | nil => intro acc _; simp [splitOnSeps]
  | cons c rest ih =>
    intro acc h
    simp only [splitOnSeps]
    rw [if_neg (h c (List.mem_cons_self c rest))]
    rw [ih (c :: acc) (fun d hd => h d (List.mem_cons_of_mem _ hd))]
    simp

/-- C6 counterexample: the single-token input "1@a\n" names no file and is
not a match of the grammar as the claim states it (a newline is not a word
character, hyphen or dot), yet the validator succeeds on it, because
Python's `re.search` lets `$` also match just before a trailing newline:
the claimed equivalence fails at this input. -/
theorem mlm_newline_cex :
    validate_mlm_license_file (fun _ => false) true (some ("1@a\n".data)) =
      .ok (some ("1@a\n".data)) ∧
    splitOnSeps (get_mlm_license_file_seperator true) ("1@a\n".data) [] =
      [("1@a\n".data)] ∧
    matchesNlmCore ("1@a\n".data) = false ∧
    (fun (_ : Str) => false) ("1@a\n".data) = false := by decide

/-- C6 (amended): for every non-empty license string, the validator fails
with `NetworkLicensingError` — whose message restates the accepted grammar
and contains the offending input — if and only if some token obtained by
splitting on the platform separator and commas is neither an existing
file nor a `re.search` match of the anchored pattern (which, by Python
`$` semantics, also accepts a grammar match followed by one trailing
newline); otherwise it succeeds, returning the input. -/
theorem mlm_error_iff (isfile : Str → Bool) (isPosix : Bool) (s : Str)
    (hs : s ≠ []) :
    (validate_mlm_license_file isfile isPosix (some s) =
        .error (.NetworkLicensingError (mlmErrMsg s)) ↔
      ∃ t ∈ splitOnSeps (get_mlm_license_file_seperator isPosix) s [],
        nlmTokenOk isfile t = false) ∧
    (validate_mlm_license_file isfile isPosix (some s) = .ok (some s) ↔
      ∀ t ∈ splitOnSeps (get_mlm_license_file_seperator isPosix) s [],
        nlmTokenOk isfile t = true) := by
  have hval : validate_mlm_license_file isfile isPosix (some s) =
      match checkTokens isfile s
          (splitOnSeps (get_mlm_license_file_seperator isPosix) s []) with
      | .ok _ => .ok (some s)
      | .error e => .error e := by
    simp [validate_mlm_license_file, hs]
  cases hck : checkTokens isfile s
      (splitOnSeps (get_mlm_license_file_seperator isPosix) s []) with
  | ok u =>
    cases u
    rw [hck] at hval
    constructor
    · rw [hval]
      constructor
      · intro he; exact absurd he (by simp)
      · rintro ⟨t, ht1, ht2⟩
        have := (checkTokens_ok_iff _ _ _).mp hck t ht1
        rw [this] at ht2
        exact Bool.noConfusion ht2
    · rw [hval]
      exact iff_of_true rfl ((checkTokens_ok_iff _ _ _).mp hck)
  | error e =>
    have hmsg := checkTokens_error_msg isfile s _ e hck
    subst hmsg
    rw [hck] at hval
    have hex : ∃ t ∈ splitOnSeps (get_mlm_license_file_seperator isPosix) s [],
        nlmTokenOk isfile t = false := by
      by_contra hno
      push_neg at hno
      have hok : checkTokens isfile s
          (splitOnSeps (get_mlm_license_file_seperator isPosix) s []) =
            .ok () := by
        refine (checkTokens_ok_iff _ _ _).mpr ?_
        intro t ht
        cases hb : nlmTokenOk isfile t with
        | false => exact absurd hb (hno t ht)
        | true => rfl
      exact Except.noConfusion (hok.symm.trans hck)
    constructor
    · rw [hval]
      exact iff_of_true rfl hex
    · rw [hval]
      constructor
      · intro he; exact absurd he (by simp)
      · intro hall
        obtain ⟨t, ht1, ht2⟩ := hex
        rw [hall t ht1] at ht2
        exact Bool.noConfusion ht2

/-- C6 witness: the single malformed token "x" makes the validator fail
with the licensing error. -/
theorem mlm_error_iff_witness :
    validate_mlm_license_file (fun _ => false) true (some ("x".data)) =
      .error (.NetworkLicensingError (mlmErrMsg ("x".data))) :=
  ((mlm_error_iff (fun _ => false) true ("x".data) (by decide)).1).mpr
    ⟨"x".data, by decide, by decide⟩

/-- C7: the license validator returns `None` with no error for absent or
empty input; on any successful non-empty input it returns the original
string unchanged (never reconstructed from the split tokens); and every
single-entry string matching the grammar is returned exactly as given. -/
theorem mlm_returns_input (isfile : Str → Bool) (isPosix : Bool) :
    validate_mlm_license_file isfile isPosix none = .ok none ∧
    validate_mlm_license_file isfile isPosix (some []) = .ok none ∧
    (∀ s r, s ≠ [] →
      validate_mlm_license_file isfile isPosix (some s) = .ok r →
      r = some s) ∧
    (∀ s, matchesNlmCore s = true →
      validate_mlm_license_file isfile isPosix (some s) = .ok (some s)) := by
  refine ⟨rfl, by simp [validate_mlm_license_file], ?_, ?_⟩
  · intro s r hs h
    simp only [validate_mlm_license_file] at h
    rw [if_neg hs] at h
    cases hck : checkTokens isfile s
        (splitOnSeps (get_mlm_license_file_seperator isPosix) s []) with
    | ok u =>
      rw [hck] at h
      simp only [Except.ok.injEq] at h
      exact h.symm
    | error e =>
      rw [hck] at h
      exact Except.noConfusion h
  · intro s hcore
    have hs : s ≠ [] := by
      intro e
      rw [e] at hcore
      exact absurd hcore (by decide)
    have hsp : nlmAllChar (get_mlm_license_file_seperator isPosix) = false := by
      cases isPosix <;> decide
    have hsep := core_no_sep s hcore _ hsp
    have hsplit := splitOnSeps_no_sep (get_mlm_license_file_seperator isPosix)
      s [] hsep
    simp only [List.reverse_nil, List.nil_append] at hsplit
    have htok : nlmTokenOk isfile s = true := by
      simp [nlmTokenOk, re_search_nlm, hcore]
    simp [validate_mlm_license_file, hs, hsplit, checkTokens, htok]

/-- C7 witness: a concrete grammar-matching single entry is returned as
given. -/
theorem mlm_returns_input_witness :
    validate_mlm_license_file (fun _ => false) true
        (some ("27000@server1".data)) = .ok (some ("27000@server1".data)) :=
  (mlm_returns_input (fun _ => false) true).2.2.2 ("27000@server1".data)
    (by decide)

end MatlabProxy
